import Mathlib

/-!
Verification of the address-lookup core of an MCP server for Dutch postal
codes (main.go). The two lookup operations, URL construction, postal-code
normalization and address formatting are shallowly embedded below; the
network and the JSON decoder are modelled as an oracle supplied to each
lookup, so that a lookup is a pure function of its arguments and of the
oracle response at the request URL it builds.
-/

namespace PostalCodes

/-- Embeds the constant baseURL from main.go. -/
def baseURL : String := "https://berthub.eu/pcode"

/-- Embeds the Address struct from main.go. Go float64 fields lat and lon
are modelled as rationals; integer fields as Int. -/
structure Address where
  street : String
  houseNumber : Int
  houseLetter : String
  houseSuffix : String
  city : String
  postalCode : String
  area : Int
  usagePurposes : List String
  buildYear : Int
  numberStatus : String
  latitude : Rat
  longitude : Rat
  x : String
  y : String
deriving DecidableEq, Repr

/-- Embeds strings.ReplaceAll(postalCode, " ", "") from lookupByPostalCode:
with a one-character pattern and an empty replacement, ReplaceAll removes
every occurrence of the space character and keeps all other characters in
order. -/
def normalizePostalCode (s : String) : String :=
  ⟨s.data.filter (fun c => c ≠ ' ')⟩

/-- Builds the request URL of lookupByPostalCode from the already
normalized postal code, mirroring the two nested conditionals in
main.go lines 260-266. -/
def buildPostalURL (pcN hn hl : String) : String :=
  let u := baseURL ++ "/" ++ pcN
  if hn = "" then u
  else
    let u := u ++ "/" ++ hn
    if hl = "" then u else u ++ "/" ++ hl

/-- The request URL of lookupByPostalCode as a function of the raw
arguments: normalization happens first (main.go line 258). -/
def postalRequestURL (pc hn hl : String) : String :=
  buildPostalURL (normalizePostalCode pc) hn hl

/-- Decimal rendering of a rational, modelling the output of Go fmt %v on
a float64 whose shortest representation is a plain decimal (the case for
Dutch coordinates): optional sign, integer part, then the fractional
digits, stopping when the remainder is zero (at most 17 digits, the
longest shortest-form float64 mantissa). -/
def fracDigits : Nat → Nat → Nat → List Nat
  | 0, _, _ => []
  | _, 0, _ => []
  | fuel + 1, r, d =>
    let r10 := r * 10
    r10 / d :: fracDigits fuel (r10 % d) d

/-- Renders a rational in decimal form, see fracDigits. -/
def goFmtFloat (q : Rat) : String :=
  let sign := if q < 0 then "-" else ""
  let n := q.num.natAbs
  let d := q.den
  let intPart := n / d
  let digits := fracDigits 17 (n % d) d
  sign ++ toString intPart ++
    (if digits = [] then "" else "." ++ ⟨digits.map Nat.digitChar⟩)

/-- The request URL of lookupByCoordinates, mirroring
fmt.Sprintf of baseURL, latitude, longitude joined by slashes
(main.go line 297). -/
def coordRequestURL (lat lon : Rat) : String :=
  baseURL ++ "/" ++ goFmtFloat lat ++ "/" ++ goFmtFloat lon

/-! Address formatting (formatAddress, main.go lines 327-368). Each line
written by a sb.WriteString call is a separate definition; conditional
lines are empty strings when their guard is false, so formatAddress is
the concatenation of the parts in source order. -/

/-- Embeds the houseNumberFull computation of formatAddress: the house
number rendered by strconv.Itoa, then the house letter if nonempty, then
a dash and the suffix if nonempty. -/
def houseNumberFull (a : Address) : String :=
  let s := toString a.houseNumber
  let s := if a.houseLetter = "" then s else s ++ a.houseLetter
  if a.houseSuffix = "" then s else s ++ "-" ++ a.houseSuffix

/-- The unconditional Street line. -/
def streetLine (a : Address) : String := "  Street: " ++ a.street ++ "\n"

/-- The unconditional House Number line. -/
def houseLine (a : Address) : String :=
  "  House Number: " ++ houseNumberFull a ++ "\n"

/-- The unconditional Postal Code line. -/
def postalLine (a : Address) : String :=
  "  Postal Code: " ++ a.postalCode ++ "\n"

/-- The unconditional City line. -/
def cityLine (a : Address) : String := "  City: " ++ a.city ++ "\n"

/-- The Area line, emitted only when addr.Area is not 0. -/
def areaPart (a : Address) : String :=
  if a.area ≠ 0 then "  Area: " ++ toString a.area ++ " m²" ++ "\n" else ""

/-- The Usage Purposes line, emitted only when the slice is nonempty;
the entries are joined with a comma and a space (strings.Join). -/
def usagePart (a : Address) : String :=
  if a.usagePurposes.length > 0 then
    "  Usage Purposes: " ++ String.intercalate ", " a.usagePurposes ++ "\n"
  else ""

/-- The Build Year line, emitted only when addr.BuildYear is not 0. -/
def buildYearPart (a : Address) : String :=
  if a.buildYear ≠ 0 then "  Build Year: " ++ toString a.buildYear ++ "\n"
  else ""

/-- The WGS84 coordinates line, emitted only when both addr.Latitude and
addr.Longitude differ from 0 (main.go line 357). -/
def wgsPart (a : Address) : String :=
  if a.latitude ≠ 0 ∧ a.longitude ≠ 0 then
    "  Coordinates (WGS84): " ++ goFmtFloat a.latitude ++ ", " ++
      goFmtFloat a.longitude ++ "\n"
  else ""

/-- The Dutch grid coordinates line, emitted only when both addr.X and
addr.Y are nonempty (main.go line 361). -/
def gridPart (a : Address) : String :=
  if a.x ≠ "" ∧ a.y ≠ "" then
    "  Coordinates (Dutch Grid): " ++ a.x ++ ", " ++ a.y ++ "\n"
  else ""

/-- Embeds formatAddress: the parts above concatenated in source order,
closed by the final newline that separates address blocks. -/
def formatAddress (a : Address) : String :=
  streetLine a ++ houseLine a ++ postalLine a ++ cityLine a ++
    areaPart a ++ usagePart a ++ buildYearPart a ++ wgsPart a ++
    gridPart a ++ "\n"

/-! The lookups. The network and the JSON decoder are an oracle
fetch : String → FetchOutcome giving, for the request URL, either a local
request-construction failure, a transport failure, or a completed HTTP
exchange carrying the status code and the JSON decode of the body. -/

/-- Outcome of the outbound HTTP request at a given URL. requestError
models a failure of http.NewRequestWithContext, transportError a failure
of http.DefaultClient.Do, and response a completed exchange whose body
decodes (Except.ok) or fails to decode (Except.error with the decoder
message) as a JSON array of Address records. -/
inductive FetchOutcome where
  | requestError (msg : String)
  | transportError (msg : String)
  | response (statusCode : Nat) (body : Except String (List Address))

/-- Embeds lookupByPostalCode (main.go lines 256-293): normalize the
postal code, build the URL, perform the exchange, fail on a non-200
status or a decode failure, and overwrite PostalCode on every decoded
address with the normalized input. -/
def lookupByPostalCode (fetch : String → FetchOutcome)
    (pc hn hl : String) : Except String (List Address) :=
  let pcN := normalizePostalCode pc
  match fetch (buildPostalURL pcN hn hl) with
  | .requestError e => .error ("failed to create request: " ++ e)
  | .transportError e => .error ("failed to make request: " ++ e)
  | .response status body =>
    if status ≠ 200 then
      .error ("API returned status code " ++ toString status)
    else
      match body with
      | .error e => .error ("failed to parse JSON response: " ++ e)
      | .ok addresses =>
        .ok (addresses.map (fun a => { a with postalCode := pcN }))

/-- Embeds lookupByCoordinates (main.go lines 296-324): build the URL
from the coordinates, perform the exchange, fail on a non-200 status or
a decode failure, and return the first address if any (nil when the
decoded list is empty). -/
def lookupByCoordinates (fetch : String → FetchOutcome)
    (lat lon : Rat) : Except String (Option Address) :=
  match fetch (coordRequestURL lat lon) with
  | .requestError e => .error ("failed to create request: " ++ e)
  | .transportError e => .error ("failed to make request: " ++ e)
  | .response status body =>
    if status ≠ 200 then
      .error ("API returned status code " ++ toString status)
    else
      match body with
      | .error e => .error ("failed to parse JSON response: " ++ e)
      | .ok addresses => .ok addresses.head?

/-- Embeds mcp.CallToolResult as used here: the texts of the content
blocks and the IsError flag. -/
structure CallToolResult where
  content : List String
  isError : Bool
deriving DecidableEq

/-- Embeds the lookup_by_postal_code tool handler (main.go lines
175-212): an error result on lookup failure, the informational message
when no address was found, otherwise one formatted text block per
address. -/
def handleLookupByPostalCode (fetch : String → FetchOutcome)
    (pc hn hl : String) : CallToolResult :=
  match lookupByPostalCode fetch pc hn hl with
  | .error e => ⟨["Error looking up postal code: " ++ e], true⟩
  | .ok [] => ⟨["No addresses found for the given postal code."], false⟩
  | .ok addresses => ⟨addresses.map formatAddress, false⟩

/-- Embeds the lookup_by_coordinates tool handler (main.go lines
218-251): an error result on lookup failure, the informational message
when the lookup returned nil, otherwise the single formatted address. -/
def handleLookupByCoordinates (fetch : String → FetchOutcome)
    (lat lon : Rat) : CallToolResult :=
  match lookupByCoordinates fetch lat lon with
  | .error e => ⟨["Error looking up coordinates: " ++ e], true⟩
  | .ok none => ⟨["No address found for the given coordinates."], false⟩
  | .ok (some a) => ⟨[formatAddress a], false⟩

/-- C5: normalization removes exactly the space characters and nothing
else — a space-free string is left unchanged, no space survives
normalization, the surviving characters are a sublist of the input
(order preserved) with the multiplicity of every non-space character
intact, normalization is idempotent, and the spec example 1234 AB
normalizes to 1234AB. -/
theorem spec_C5 :
    (∀ s : String, (∀ c ∈ s.data, c ≠ ' ') → normalizePostalCode s = s) ∧
    (∀ s : String, ∀ c ∈ (normalizePostalCode s).data, c ≠ ' ') ∧
    (∀ s : String, (normalizePostalCode s).data.Sublist s.data) ∧
    (∀ (s : String) (c : Char), c ≠ ' ' →
      (normalizePostalCode s).data.count c = s.data.count c) ∧
    (∀ s : String,
      normalizePostalCode (normalizePostalCode s) = normalizePostalCode s) ∧
    normalizePostalCode "1234 AB" = "1234AB" := by
  refine ⟨?_, ?_, ?_, ?_, ?_, by decide⟩
  · intro s h
    apply String.ext
    show s.data.filter _ = s.data
    rw [List.filter_eq_self]
    intro a ha
    simpa using h a ha
  · intro s c hc
    have h := List.mem_filter.mp hc
    simpa using h.2
  · intro s
    exact List.filter_sublist _
  · intro s c hc
    exact List.count_filter (by simpa using hc)
  · intro s
    apply String.ext
    show (s.data.filter _).filter _ = s.data.filter _
    rw [List.filter_filter]
    simp

/-- C5 witness: the space-free postal code 1234AB is left unchanged by
normalization, by the first conjunct of the C5 theorem. -/
theorem spec_C5_witness : normalizePostalCode "1234AB" = "1234AB" :=
  spec_C5.1 "1234AB" (by decide)

/-- C4: the postal-code request path appends, in order, the normalized
postal code, then the house number only when nonempty, then the house
letter only when the house number is also nonempty; the spec example
1234AB, 1, A yields /1234AB/1/A, and a house letter without a house
number is dropped. -/
theorem spec_C4 :
    postalRequestURL "1234AB" "1" "A" = "https://berthub.eu/pcode/1234AB/1/A" ∧
    (∀ pc hl : String,
      postalRequestURL pc "" hl = baseURL ++ "/" ++ normalizePostalCode pc) ∧
    (∀ pc hn : String, hn ≠ "" →
      postalRequestURL pc hn "" =
        baseURL ++ "/" ++ normalizePostalCode pc ++ "/" ++ hn) ∧
    (∀ pc hn hl : String, hn ≠ "" → hl ≠ "" →
      postalRequestURL pc hn hl =
        baseURL ++ "/" ++ normalizePostalCode pc ++ "/" ++ hn ++ "/" ++ hl) := by
  refine ⟨by decide, ?_, ?_, ?_⟩
  · intro pc hl
    simp [postalRequestURL, buildPostalURL]
  · intro pc hn h
    simp [postalRequestURL, buildPostalURL, h]
  · intro pc hn hl h1 h2
    simp [postalRequestURL, buildPostalURL, h1, h2]

/-- C4 witness: a concrete nonempty house number with an empty house
letter yields the two-segment path, by the third conjunct of the C4
theorem. -/
theorem spec_C4_witness :
    postalRequestURL "1234AB" "7" "" =
      baseURL ++ "/" ++ normalizePostalCode "1234AB" ++ "/" ++ "7" :=
  spec_C4.2.2.1 "1234AB" "7" (by decide)

/-- C10: arguments are spliced into the URL verbatim, with no
percent-encoding, so the input 12/34 with no house number produces a
path with two segments — indistinguishable from the request that postal
code 12 with house number 34 produces — and one more slash than a
well-formed single-segment postal code yields. -/
theorem spec_C10 :
    postalRequestURL "12/34" "" "" = baseURL ++ "/" ++ "12" ++ "/" ++ "34" ∧
    postalRequestURL "12/34" "" "" = postalRequestURL "12" "34" "" ∧
    (postalRequestURL "12/34" "" "").data.count '/' = 5 ∧
    (postalRequestURL "1234AB" "" "").data.count '/' = 4 := by decide

/-- C9: the coordinate request URL is the base URL followed by the
rendering of the latitude and then of the longitude, in that order, in
decimal form, as checked on concrete coordinates. -/
theorem spec_C9 :
    (∀ lat lon : Rat, coordRequestURL lat lon =
      baseURL ++ "/" ++ goFmtFloat lat ++ "/" ++ goFmtFloat lon) ∧
    coordRequestURL (mkRat 52379 1000) (mkRat 49 10) =
      "https://berthub.eu/pcode/52.379/4.9" ∧
    goFmtFloat (mkRat 52379 1000) = "52.379" ∧
    goFmtFloat (mkRat 49 10) = "4.9" ∧
    goFmtFloat (mkRat (-523) 100) = "-5.23" :=
  ⟨fun _ _ => rfl, by decide, by decide, by decide, by decide⟩

/-- A concrete address for witnesses; its upstream postcode field
deliberately disagrees with any queried postal code. -/
def testAddr : Address :=
  { street := "Dam", houseNumber := 1, houseLetter := "", houseSuffix := "",
    city := "Amsterdam", postalCode := "9999ZZ", area := 0,
    usagePurposes := [], buildYear := 0, numberStatus := "Naamgeving uitgegeven",
    latitude := 0, longitude := 0, x := "", y := "" }

/-- C1: whenever a postal-code lookup succeeds, every address in the
result carries the normalized input postal code, whatever postcode the
decoded upstream records held. -/
theorem spec_C1 (fetch : String → FetchOutcome) (pc hn hl : String)
    (addresses : List Address)
    (h : lookupByPostalCode fetch pc hn hl = .ok addresses) :
    ∀ a ∈ addresses, a.postalCode = normalizePostalCode pc := by
  unfold lookupByPostalCode at h
  dsimp only at h
  cases hf : fetch (buildPostalURL (normalizePostalCode pc) hn hl) with
  | requestError e => rw [hf] at h; exact absurd h (by simp)
  | transportError e => rw [hf] at h; exact absurd h (by simp)
  | response status body =>
    rw [hf] at h
    dsimp only at h
    by_cases h200 : status = 200
    · subst h200
      simp only [ne_eq, not_true_eq_false, if_false, reduceIte] at h
      cases body with
      | error e => exact absurd h (by simp)
      | ok l =>
        simp only [Except.ok.injEq] at h
        subst h
        intro a ha
        rcases List.mem_map.mp ha with ⟨b, _, rfl⟩
        rfl
    · rw [if_pos h200] at h
      exact absurd h (by simp)

/-- The oracle for the C1 witness: every exchange completes with status
200 and a body decoding to the single test address. -/
def fetchC1 : String → FetchOutcome :=
  fun _ => .response 200 (.ok [testAddr])

/-- C1 witness: looking up 1234 AB against fetchC1 succeeds and the one
returned address carries postal code 1234AB, not the upstream 9999ZZ. -/
theorem spec_C1_witness :
    lookupByPostalCode fetchC1 "1234 AB" "" "" =
      .ok [{ testAddr with postalCode := "1234AB" }] ∧
    ∀ a ∈ [{ testAddr with postalCode := "1234AB" }],
      a.postalCode = normalizePostalCode "1234 AB" :=
  ⟨rfl, spec_C1 fetchC1 "1234 AB" "" "" _ rfl⟩

/-- C8: a postal-code lookup whose exchange completes with status 200
and a body decoding to the empty array yields the informational
no-addresses message with the error flag clear. -/
theorem spec_C8 (fetch : String → FetchOutcome) (pc hn hl : String)
    (h : fetch (postalRequestURL pc hn hl) = .response 200 (.ok [])) :
    handleLookupByPostalCode fetch pc hn hl =
      ⟨["No addresses found for the given postal code."], false⟩ := by
  unfold postalRequestURL at h
  unfold handleLookupByPostalCode lookupByPostalCode
  dsimp only
  rw [h]
  rfl

/-- The oracle for the C8 witness: every exchange completes with status
200 and an empty decoded array. -/
def fetchC8 : String → FetchOutcome := fun _ => .response 200 (.ok [])

/-- C8 witness: the empty upstream result for a concrete query gives the
informational message and no error flag. -/
theorem spec_C8_witness :
    handleLookupByPostalCode fetchC8 "9999 XX" "" "" =
      ⟨["No addresses found for the given postal code."], false⟩ :=
  spec_C8 fetchC8 "9999 XX" "" "" rfl

/-- C2: for a coordinate lookup whose exchange completes with status 200
and a decoded list of addresses, a nonempty list yields exactly one
formatted text block, the first address of the list, with the error flag
clear; an empty list yields the informational no-address message, also
with the error flag clear. -/
theorem spec_C2 (fetch : String → FetchOutcome) (lat lon : Rat)
    (addresses : List Address)
    (h : fetch (coordRequestURL lat lon) = .response 200 (.ok addresses)) :
    (∀ a rest, addresses = a :: rest →
      handleLookupByCoordinates fetch lat lon = ⟨[formatAddress a], false⟩) ∧
    (addresses = [] →
      handleLookupByCoordinates fetch lat lon =
        ⟨["No address found for the given coordinates."], false⟩) := by
  constructor
  · rintro a rest rfl
    unfold handleLookupByCoordinates lookupByCoordinates
    rw [h]
    rfl
  · rintro rfl
    unfold handleLookupByCoordinates lookupByCoordinates
    rw [h]
    rfl

/-- A second concrete address for the C2 witness, distinct from the
first element of the decoded list. -/
def secondAddr : Address := { testAddr with street := "Rokin", houseNumber := 2 }

/-- The oracle for the C2 witness: every exchange completes with status
200 and a two-element decoded list. -/
def fetchC2 : String → FetchOutcome :=
  fun _ => .response 200 (.ok [testAddr, secondAddr])

/-- C2 witness: with two upstream candidates, the tool result is the
single formatted block of the first one, by the first conjunct of the C2
theorem at concrete coordinates. -/
theorem spec_C2_witness :
    handleLookupByCoordinates fetchC2 (mkRat 52 1) (mkRat 5 1) =
      ⟨[formatAddress testAddr], false⟩ :=
  (spec_C2 fetchC2 (mkRat 52 1) (mkRat 5 1) [testAddr, secondAddr] rfl).1
    testAddr [secondAddr] rfl

/-- C3: for either lookup whose exchange completes, the tool result is
marked as an error exactly when the status differs from 200 or the body
fails to decode; a non-200 status yields the upstream-error message
carrying the status code, and a decode failure under status 200 yields
the decode-error message, each surfaced as an error-flagged result. -/
theorem spec_C3 (fetch : String → FetchOutcome) (pc hn hl : String)
    (lat lon : Rat) (ps cs : Nat) (pb cb : Except String (List Address))
    (hp : fetch (postalRequestURL pc hn hl) = .response ps pb)
    (hc : fetch (coordRequestURL lat lon) = .response cs cb) :
    ((handleLookupByPostalCode fetch pc hn hl).isError = true ↔
      ps ≠ 200 ∨ ∃ e, pb = .error e) ∧
    (ps ≠ 200 → handleLookupByPostalCode fetch pc hn hl =
      ⟨["Error looking up postal code: API returned status code " ++
          toString ps], true⟩) ∧
    (∀ e, ps = 200 → pb = .error e → handleLookupByPostalCode fetch pc hn hl =
      ⟨["Error looking up postal code: failed to parse JSON response: " ++ e],
        true⟩) ∧
    ((handleLookupByCoordinates fetch lat lon).isError = true ↔
      cs ≠ 200 ∨ ∃ e, cb = .error e) ∧
    (cs ≠ 200 → handleLookupByCoordinates fetch lat lon =
      ⟨["Error looking up coordinates: API returned status code " ++
          toString cs], true⟩) ∧
    (∀ e, cs = 200 → cb = .error e → handleLookupByCoordinates fetch lat lon =
      ⟨["Error looking up coordinates: failed to parse JSON response: " ++ e],
        true⟩) := by
  unfold postalRequestURL at hp
  refine ⟨?_, ?_, ?_, ?_, ?_, ?_⟩
  · unfold handleLookupByPostalCode lookupByPostalCode
    dsimp only
    rw [hp]
    dsimp only
    by_cases h200 : ps = 200
    · subst h200
      simp only [ne_eq, not_true_eq_false, if_false, reduceIte]
      cases pb with
      | error e => simp
      | ok l =>
        cases l with
        | nil => simp
        | cons a rest => simp
    · rw [if_pos h200]
      simp [h200]
  · intro hps
    unfold handleLookupByPostalCode lookupByPostalCode
    dsimp only
    rw [hp]
    dsimp only
    rw [if_pos hps]
    rfl
  · intro e h200 he
    subst h200
    subst he
    unfold handleLookupByPostalCode lookupByPostalCode
    dsimp only
    rw [hp]
    rfl
  · unfold handleLookupByCoordinates lookupByCoordinates
    rw [hc]
    dsimp only
    by_cases h200 : cs = 200
    · subst h200
      simp only [ne_eq, not_true_eq_false, if_false, reduceIte]
      cases cb with
      | error e => simp
      | ok l =>
        cases l with
        | nil => simp
        | cons a rest => simp
    · rw [if_pos h200]
      simp [h200]
  · intro hcs
    unfold handleLookupByCoordinates lookupByCoordinates
    rw [hc]
    dsimp only
    rw [if_pos hcs]
    rfl
  · intro e h200 he
    subst h200
    subst he
    unfold handleLookupByCoordinates lookupByCoordinates
    rw [hc]
    rfl

/-- The oracle for the C3 witness: every exchange completes with a 404
status. -/
def fetchC3 : String → FetchOutcome := fun _ => .response 404 (.ok [])

/-- C3 witness: a 404 exchange for a concrete postal-code query yields
the error-flagged upstream-error result carrying the status code, by the
second conjunct of the C3 theorem. -/
theorem spec_C3_witness :
    handleLookupByPostalCode fetchC3 "1234AB" "" "" =
      ⟨["Error looking up postal code: API returned status code 404"], true⟩ :=
  (spec_C3 fetchC3 "1234AB" "" "" (mkRat 52 1) (mkRat 5 1) 404 404
    (.ok []) (.ok []) rfl rfl).2.1 (by decide)

/-- A string that is some text followed by a newline. -/
def endsWithNewline (s : String) : Prop := ∃ t, s = t ++ "\n"

/-- Appending a newline-terminated string yields a newline-terminated
string. -/
theorem endsWithNewline_append_right (s t : String)
    (ht : endsWithNewline t) : endsWithNewline (s ++ t) := by
  obtain ⟨u, rfl⟩ := ht
  exact ⟨s ++ u, (String.append_assoc ..).symm⟩

/-- Appending an empty or newline-terminated string to a
newline-terminated string yields a newline-terminated string. -/
theorem endsWithNewline_append_opt (s t : String)
    (hs : endsWithNewline s) (ht : t = "" ∨ endsWithNewline t) :
    endsWithNewline (s ++ t) := by
  rcases ht with rfl | h
  · rwa [String.append_empty]
  · exact endsWithNewline_append_right s t h

/-- Every conditional part of formatAddress is empty or
newline-terminated. -/
theorem areaPart_opt (a : Address) :
    areaPart a = "" ∨ endsWithNewline (areaPart a) := by
  unfold areaPart
  split
  · exact Or.inr ⟨_, rfl⟩
  · exact Or.inl rfl

/-- See areaPart_opt. -/
theorem usagePart_opt (a : Address) :
    usagePart a = "" ∨ endsWithNewline (usagePart a) := by
  unfold usagePart
  split
  · exact Or.inr ⟨_, rfl⟩
  · exact Or.inl rfl

/-- See areaPart_opt. -/
theorem buildYearPart_opt (a : Address) :
    buildYearPart a = "" ∨ endsWithNewline (buildYearPart a) := by
  unfold buildYearPart
  split
  · exact Or.inr ⟨_, rfl⟩
  · exact Or.inl rfl

/-- See areaPart_opt. -/
theorem wgsPart_opt (a : Address) :
    wgsPart a = "" ∨ endsWithNewline (wgsPart a) := by
  unfold wgsPart
  split
  · exact Or.inr ⟨_, rfl⟩
  · exact Or.inl rfl

/-- See areaPart_opt. -/
theorem gridPart_opt (a : Address) :
    gridPart a = "" ∨ endsWithNewline (gridPart a) := by
  unfold gridPart
  split
  · exact Or.inr ⟨_, rfl⟩
  · exact Or.inl rfl

/-- C6: formatting always emits the Street, House Number, Postal Code
and City lines first; the Area, Usage Purposes and Build Year lines
collapse to nothing at their sentinel values 0, empty list and 0, in
which case the output is exactly the four mandatory lines, the optional
coordinate lines and the closing newline; and the output always ends
with a blank line. Totality and determinism hold because formatAddress
is a Lean function. -/
theorem spec_C6 : ∀ a : Address,
    (∃ rest, formatAddress a =
      streetLine a ++ houseLine a ++ postalLine a ++ cityLine a ++ rest) ∧
    (a.area = 0 → areaPart a = "") ∧
    (a.usagePurposes = [] → usagePart a = "") ∧
    (a.buildYear = 0 → buildYearPart a = "") ∧
    (a.area = 0 → a.usagePurposes = [] → a.buildYear = 0 →
      formatAddress a = streetLine a ++ houseLine a ++ postalLine a ++
        cityLine a ++ wgsPart a ++ gridPart a ++ "\n") ∧
    (∃ t, formatAddress a = t ++ "\n\n") := by
  intro a
  refine ⟨?_, ?_, ?_, ?_, ?_, ?_⟩
  · refine ⟨areaPart a ++ (usagePart a ++ (buildYearPart a ++
      (wgsPart a ++ (gridPart a ++ "\n")))), ?_⟩
    simp [formatAddress, String.append_assoc]
  · intro h
    simp [areaPart, h]
  · intro h
    simp [usagePart, h]
  · intro h
    simp [buildYearPart, h]
  · intro h1 h2 h3
    simp [formatAddress, areaPart, usagePart, buildYearPart, h1, h2, h3,
      String.append_empty]
  · have base : endsWithNewline
        (streetLine a ++ houseLine a ++ postalLine a ++ cityLine a) :=
      endsWithNewline_append_right _ _ ⟨_, rfl⟩
    have h5 := endsWithNewline_append_opt _ _ base (areaPart_opt a)
    have h6 := endsWithNewline_append_opt _ _ h5 (usagePart_opt a)
    have h7 := endsWithNewline_append_opt _ _ h6 (buildYearPart_opt a)
    have h8 := endsWithNewline_append_opt _ _ h7 (wgsPart_opt a)
    have h9 := endsWithNewline_append_opt _ _ h8 (gridPart_opt a)
    obtain ⟨t, ht⟩ := h9
    refine ⟨t, ?_⟩
    show (streetLine a ++ houseLine a ++ postalLine a ++ cityLine a ++
      areaPart a ++ usagePart a ++ buildYearPart a ++ wgsPart a ++
      gridPart a) ++ "\n" = t ++ "\n\n"
    rw [ht, String.append_assoc]
    rfl

/-- C6 witness: the concrete test address has all three sentinel values,
so its formatted output is exactly the mandatory lines, the (empty)
coordinate parts and the closing newline, by the fifth conjunct of the
C6 theorem. -/
theorem spec_C6_witness :
    formatAddress testAddr = streetLine testAddr ++ houseLine testAddr ++
      postalLine testAddr ++ cityLine testAddr ++ wgsPart testAddr ++
      gridPart testAddr ++ "\n" :=
  (spec_C6 testAddr).2.2.2.2.1 rfl rfl rfl

/-- The C7 counterexample address: latitude 0 with a nonzero longitude,
so the coordinate pair differs from the origin. -/
def mixedZeroAddr : Address := { testAddr with longitude := mkRat 5 1 }

/-- C7 counterexample: this address has (latitude, longitude) different
from (0, 0), yet the WGS84 coordinates line is omitted — its part is
empty and the full output holds only the four mandatory lines — so the
claimed equivalence with the pair being absent fails. -/
theorem spec_C7_cex :
    (mixedZeroAddr.latitude, mixedZeroAddr.longitude) ≠ ((0 : Rat), (0 : Rat)) ∧
    wgsPart mixedZeroAddr = "" ∧
    formatAddress mixedZeroAddr =
      "  Street: Dam\n  House Number: 1\n  Postal Code: 9999ZZ\n  City: Amsterdam\n\n" := by
  refine ⟨by decide, by decide, by decide⟩

/-- C7 amended: the WGS84 coordinates line is emitted exactly when both
the latitude and the longitude are nonzero; it is omitted whenever
either of them is zero. -/
theorem spec_C7 : ∀ a : Address,
    wgsPart a ≠ "" ↔ a.latitude ≠ 0 ∧ a.longitude ≠ 0 := by
  intro a
  unfold wgsPart
  split
  next h =>
    refine ⟨fun _ => h, fun _ heq => ?_⟩
    have hlen := congrArg String.length heq
    simp only [String.length_append] at hlen
    have hpos : 0 < "  Coordinates (WGS84): ".length := by decide
    have hnil : String.length "" = 0 := by decide
    rw [hnil] at hlen
    omega
  next h =>
    exact ⟨fun hne => absurd rfl hne, fun hcond => absurd hcond h⟩

end PostalCodes
